import Mathlib

/-!
Verification of the engagement-intelligence and dispatch core of the SMS
partner-messaging platform (src/app.py), shallowly embedded in Lean.

Conventions of the embedding:
* Timestamps (`created_at`, `scheduled_time`, `now`) are rationals measured in
  hours, so Python's `(t1 - t2).total_seconds() / 3600` is plain subtraction.
* The Twilio transport (`client.messages.create`) is an external capability,
  modelled as a function from (to, body, media_url) to `Except` — an error
  models a raised exception.  `cfg : Bool` models `get_twilio_client()`
  returning a client or `None`.
* Database rows are Lean structures; the session is a `DB` value threaded
  through each operation.  Each operation also returns the list of transport
  calls it performed, in order.
* Python truthiness is modelled explicitly where the source relies on it
  (`if partner_id:` is false for `None` and for `0`; `if self.last_name:` is
  false for `None` and for `""`).
-/

namespace SMS

/-- `Partner` row (the fields the core reads); `regionName`/`tsdName` stand for
the joined `region.name` / `tsd.name`. -/
structure Partner where
  id : Nat
  first_name : String
  last_name : Option String
  company : Option String
  phone : String
  regionName : Option String
  tsdName : Option String
  notes : Option String
  opted_out : Bool
  archived : Bool
  last_contacted : Option ℚ
deriving Repr, DecidableEq

/-- `Message` row. -/
structure Message where
  partner_id : Nat
  direction : String
  body : Option String
  media_url : Option String
  media_type : Option String
  status : Option String
  twilio_sid : Option String
  created_at : ℚ
deriving Repr, DecidableEq

/-- `ScheduledMessage` row; `partner_ids` holds the decoded JSON array. -/
structure ScheduledMessage where
  id : Nat
  message_template : String
  partner_ids : List Nat
  media_url : Option String
  media_type : Option String
  scheduled_time : ℚ
  status : String
deriving Repr, DecidableEq

/-- The database state seen by the core. -/
structure DB where
  partners : List Partner
  messages : List Message
  scheduled : List ScheduledMessage
deriving Repr, DecidableEq

/-- Successful transport response (`message.sid`, `message.status`). -/
structure TwilioMsg where
  sid : String
  status : String
deriving Repr, DecidableEq

/-- One call to `client.messages.create`. -/
structure TransportCall where
  to_phone : String
  body : String
  media_url : Option String
deriving Repr, DecidableEq

/-- The dict returned by `send_sms` (keys that are absent are `none`). -/
structure SendResult where
  success : Bool
  error : Option String
  sid : Option String
  status : Option String
deriving Repr, DecidableEq

/-- The transport capability: `create to body media_url`. -/
abbrev Transport := String → String → Option String → Except String TwilioMsg

def DB.getPartner (db : DB) (pid : Nat) : Option Partner :=
  db.partners.find? (fun p => p.id == pid)

def DB.addMessage (db : DB) (m : Message) : DB :=
  { db with messages := db.messages ++ [m] }

/-- `partner.last_contacted = datetime.utcnow()` on the row with this id. -/
def DB.touchPartner (db : DB) (pid : Nat) (now : ℚ) : DB :=
  { db with partners :=
      db.partners.map (fun p => if p.id == pid then { p with last_contacted := some now } else p) }

def DB.setScheduledStatus (db : DB) (sid : Nat) (st : String) : DB :=
  { db with scheduled :=
      db.scheduled.map (fun s => if s.id == sid then { s with status := st } else s) }

def DB.setOptedOut (db : DB) (pid : Nat) : DB :=
  { db with partners :=
      db.partners.map (fun p => if p.id == pid then { p with opted_out := true } else p) }

/-- `Partner.full_name`: `first_name` plus `last_name` when the latter is
truthy (not `None`, not `""`). -/
def full_name (p : Partner) : String :=
  match p.last_name with
  | some l => if l = "" then p.first_name else p.first_name ++ " " ++ l
  | none => p.first_name

/-- `personalize_message(template, partner)`: fixed token table, each token
replaced by the field or the empty string. -/
def personalize_message (template : String) (p : Partner) : String :=
  let m := template.replace "\x7b\x7bfirst_name\x7d\x7d" p.first_name
  let m := m.replace "\x7b\x7blast_name\x7d\x7d" (p.last_name.getD "")
  let m := m.replace "\x7b\x7bname\x7d\x7d" (full_name p)
  let m := m.replace "\x7b\x7bcompany\x7d\x7d" (p.company.getD "")
  let m := m.replace "\x7b\x7bregion\x7d\x7d" (p.regionName.getD "")
  let m := m.replace "\x7b\x7btsd\x7d\x7d" (p.tsdName.getD "")
  m

/-- Result literal for an unconfigured Twilio client. -/
def twilioNotConfigured : SendResult :=
  { success := false, error := some "Twilio not configured", sid := none, status := none }

/-- Result literal for the opt-out compliance denial. -/
def optOutDenial : SendResult :=
  { success := false, error := some "Partner has opted out", sid := none, status := none }

/-- The `# Check opt-out` block of `send_sms`: `if partner_id:` is Python
truthiness (false for `None` and for `0`); then the partner is re-read from
the database and `partner and partner.opted_out` decides the denial. -/
def optout_blocked (db : DB) : Option Nat → Bool
  | some pid =>
      if pid != 0 then
        match db.getPartner pid with
        | some p => p.opted_out
        | none => false
      else false
  | none => false

/-- The `# Log message and update last_contacted` block of `send_sms`, run
only after a successful transport call and only under `if partner_id:`. -/
def log_outbound (db : DB) (now : ℚ) (body : String)
    (media_url media_type : Option String) (tw : TwilioMsg) : Option Nat → DB
  | some pid =>
      if pid != 0 then
        (db.addMessage
          { partner_id := pid, direction := "outbound", body := some body,
            media_url := media_url, media_type := media_type,
            status := some tw.status, twilio_sid := some tw.sid,
            created_at := now }).touchPartner pid now
      else db
  | none => db

/-- `send_sms(to_phone, body, partner_id, media_url, media_type)`.
Returns the result dict, the updated database, and the transport calls made
(a raised transport exception still counts as one attempted call). -/
def send_sms (env : Transport) (cfg : Bool) (db : DB) (now : ℚ)
    (to_phone body : String) (partner_id : Option Nat)
    (media_url media_type : Option String) : SendResult × DB × List TransportCall :=
  if cfg = false then (twilioNotConfigured, db, [])
  else if optout_blocked db partner_id then (optOutDenial, db, [])
  else
    match env to_phone body media_url with
    | Except.error e =>
        ({ success := false, error := some e, sid := none, status := none }, db,
          [⟨to_phone, body, media_url⟩])
    | Except.ok tw =>
        ({ success := true, error := none, sid := some tw.sid, status := some tw.status },
          log_outbound db now body media_url media_type tw partner_id,
          [⟨to_phone, body, media_url⟩])

/-- One entry of the list built by `api_broadcast`
(`{'partner': partner.full_name, 'result': result}`). -/
structure BroadcastEntry where
  partner : String
  result : SendResult
deriving Repr, DecidableEq

/-- The per-partner loop of `api_broadcast`, written as recursion over the id
list (the Python `for pid in partner_ids` loop).  A missing partner and an
opted-out partner are skipped with no entry appended. -/
def api_broadcast_go (env : Transport) (cfg : Bool) (now : ℚ)
    (message_template : String) (media_url media_type : Option String) :
    DB → List Nat → List BroadcastEntry × DB × List TransportCall
  | db, [] => ([], db, [])
  | db, pid :: rest =>
      match db.getPartner pid with
      | some p =>
          if p.opted_out then
            api_broadcast_go env cfg now message_template media_url media_type db rest
          else
            let msg := personalize_message message_template p
            let s := send_sms env cfg db now p.phone msg (some p.id) media_url media_type
            let t := api_broadcast_go env cfg now message_template media_url media_type s.2.1 rest
            (⟨full_name p, s.1⟩ :: t.1, t.2.1, s.2.2 ++ t.2.2)
      | none => api_broadcast_go env cfg now message_template media_url media_type db rest

/-- `api_broadcast`: returns the result entries, the final database and the
transport calls made. -/
def api_broadcast (env : Transport) (cfg : Bool) (db : DB) (now : ℚ)
    (message_template : String) (partner_ids : List Nat)
    (media_url media_type : Option String) : List BroadcastEntry × DB × List TransportCall :=
  api_broadcast_go env cfg now message_template media_url media_type db partner_ids

/-- `api_scheduled_delete`: `get_or_404`, then unconditionally
`scheduled.status = 'cancelled'`.  `none` models the 404. -/
def api_scheduled_delete (db : DB) (sid : Nat) : Option DB :=
  match db.scheduled.find? (fun s => s.id == sid) with
  | some _ => some (db.setScheduledStatus sid "cancelled")
  | none => none

/-- The inner partner loop of `send_scheduled_messages` for one batch:
`if partner and not partner.opted_out: send_sms(...)`. -/
def run_batch_partners (env : Transport) (cfg : Bool) (now : ℚ)
    (message_template : String) (media_url media_type : Option String) :
    DB → List Nat → DB × List TransportCall
  | db, [] => (db, [])
  | db, pid :: rest =>
      match db.getPartner pid with
      | some p =>
          if p.opted_out then
            run_batch_partners env cfg now message_template media_url media_type db rest
          else
            let msg := personalize_message message_template p
            let s := send_sms env cfg db now p.phone msg (some p.id) media_url media_type
            let t := run_batch_partners env cfg now message_template media_url media_type s.2.1 rest
            (t.1, s.2.2 ++ t.2)
      | none => run_batch_partners env cfg now message_template media_url media_type db rest

/-- The outer batch loop of `send_scheduled_messages`, over the batch rows
selected up-front: send to every target, then `scheduled.status = 'sent'`. -/
def run_selected (env : Transport) (cfg : Bool) (now : ℚ) :
    DB → List ScheduledMessage → DB × List TransportCall
  | db, [] => (db, [])
  | db, b :: rest =>
      let s := run_batch_partners env cfg now b.message_template b.media_url b.media_type
        db b.partner_ids
      let db1 := s.1.setScheduledStatus b.id "sent"
      let t := run_selected env cfg now db1 rest
      (t.1, s.2 ++ t.2)

/-- The selection query of `send_scheduled_messages`:
`status == 'pending' and scheduled_time <= now`. -/
def select_due (db : DB) (now : ℚ) : List ScheduledMessage :=
  db.scheduled.filter (fun s => s.status == "pending" && decide (s.scheduled_time ≤ now))

/-- `send_scheduled_messages()`: select the due pending batches, then process
each (the selection happens once, before any batch is processed). -/
def send_scheduled_messages (env : Transport) (cfg : Bool) (db : DB) (now : ℚ) :
    DB × List TransportCall :=
  run_selected env cfg now db (select_due db now)

/-- Python `str.strip()`: drop whitespace from both ends (written over the
character list so that it evaluates inside the kernel). -/
def pyStrip (s : String) : String :=
  String.mk (((s.data.dropWhile Char.isWhitespace).reverse.dropWhile Char.isWhitespace).reverse)

/-- Python `str.lower()` (ASCII case folding, as used for the keyword set). -/
def pyLower (s : String) : String :=
  String.mk (s.data.map Char.toLower)

/-- Python `str.startswith(pre)`. -/
def pyStartsWith (s pre : String) : Bool :=
  pre.data.isPrefixOf s.data

/-- The opt-out keyword set of `webhook_incoming`. -/
def opt_out_keywords : List String := ["stop", "unsubscribe", "cancel", "quit", "end"]

/-- Auto-increment id for a freshly inserted `Partner` row. -/
def nextPartnerId (db : DB) : Nat :=
  (db.partners.map (fun p => p.id)).foldl max 0 + 1

/-- `webhook_incoming`: look up the sender by phone; flip `opted_out` when the
trimmed, lower-cased body is an exact opt-out keyword and the partner already
exists; then log the inbound message, auto-creating the partner if unknown.
The notification send is external and best-effort, not modelled. -/
def webhook_incoming (db : DB) (now : ℚ) (from_number body : String)
    (media_url media_type : Option String) : DB :=
  let partner0 := db.partners.find? (fun p => p.phone == from_number)
  let db1 :=
    if opt_out_keywords.contains (pyLower (pyStrip body)) then
      match partner0 with
      | some p => db.setOptedOut p.id
      | none => db
    else db
  match partner0 with
  | some p =>
      db1.addMessage
        { partner_id := p.id, direction := "inbound", body := some body,
          media_url := media_url, media_type := media_type,
          status := some "received", twilio_sid := none, created_at := now }
  | none =>
      let nid := nextPartnerId db1
      let newP : Partner :=
        { id := nid, first_name := from_number, last_name := none, company := none,
          phone := from_number, regionName := none, tsdName := none,
          notes := some "Auto-created from incoming message",
          opted_out := false, archived := false, last_contacted := none }
      ({ db1 with partners := db1.partners ++ [newP] }).addMessage
        { partner_id := nid, direction := "inbound", body := some body,
          media_url := media_url, media_type := media_type,
          status := some "received", twilio_sid := none, created_at := now }

/-! ### GhostDetector (`api_ai_ghost_alerts` per-partner core)

The handler loads a partner's messages ordered by `created_at` descending;
all GhostDetector functions below take that descending list. -/

/-- The validity test the source applies to a latency sample:
`delta > 0 and delta < 168`. -/
def ghost_sample_ok (d : ℚ) : Bool :=
  decide (0 < d) && decide (d < 168)

/-- The response-time pairing loop of `api_ai_ghost_alerts`:
`for i, msg in enumerate(messages[:-1])` — the last (oldest) element is not
itself paired — and, for an inbound `msg`, the first outbound message in
`messages[i+1:]` is its nearest preceding outbound. -/
def response_times : List Message → List ℚ
  | [] => []
  | [_] => []
  | m :: r :: rs =>
      (if m.direction == "inbound" then
        match (r :: rs).find? (fun p => p.direction == "outbound") with
        | some prev =>
            let d := m.created_at - prev.created_at
            if ghost_sample_ok d then [d] else []
        | none => []
      else []) ++ response_times (r :: rs)

/-- `avg_response_hours`: mean of the collected samples, or the 48-hour
default when there are none. -/
def avg_response_hours (msgs : List Message) : ℚ :=
  let rt := response_times msgs
  if rt.isEmpty then 48 else rt.sum / (rt.length : ℚ)

/-- The fields of one ghost entry relevant to the flagging logic
(`round(...,1)` on `avg_response_hours` is presentation only and omitted;
`int(hours_waiting / 24)` is `Rat.floor` since the guard forces
`hours_waiting > 48 > 0`). -/
structure GhostInfo where
  partner_id : Nat
  days_waiting : Int
  avg_hours : ℚ
  urgency : String
deriving Repr, DecidableEq

/-- The per-partner body of the `api_ai_ghost_alerts` loop: skip a partner
with no messages or whose latest message is not outbound; otherwise flag iff
`hours_waiting > max(avg_response_hours * 2, 48)`. -/
def ghost_check (now : ℚ) (p : Partner) (msgs : List Message) : Option GhostInfo :=
  match msgs with
  | [] => none
  | last :: _ =>
      if last.direction != "outbound" then none
      else
        let avg := avg_response_hours msgs
        let hours_waiting := now - last.created_at
        if hours_waiting > max (avg * 2) 48 then
          let days_waiting : Int := ⌊hours_waiting / 24⌋
          some { partner_id := p.id, days_waiting := days_waiting, avg_hours := avg,
                 urgency :=
                   if days_waiting > 7 then "high"
                   else if days_waiting > 3 then "medium" else "low" }
        else none

/-! ### ResponseTimeAnalyzer (`api_ai_best_time`)

The handler reads the inbound messages of one partner (in query order) and
uses only `created_at.hour` and `created_at.strftime('%A')`; the embedding
takes the list of those extracted `(hour, weekday-name)` pairs. -/

/-- Python dict update `h[k] = h.get(k, 0) + 1`: a fresh key is appended at
the end (insertion order), an existing key keeps its position. -/
def histAdd [DecidableEq α] (h : List (α × Nat)) (k : α) : List (α × Nat) :=
  if h.any (fun q => q.1 = k) then
    h.map (fun q => if q.1 = k then (q.1, q.2 + 1) else q)
  else h ++ [(k, 1)]

/-- Python `max(xs, key=f)` over a non-empty iterable `x :: xs`: the fold
replaces the current best only on a strictly larger key, so the first
occurrence of the maximal key wins. -/
def pyMaxBy (f : α → Nat) (x : α) (xs : List α) : α :=
  xs.foldl (fun b a => if f b < f a then a else b) x

/-- `max(hist, key=hist.get) if hist else d` for an insertion-ordered
histogram built by `histAdd`. -/
def bestKey [DecidableEq α] (l : List α) (d : α) : α :=
  match l.foldl histAdd [] with
  | [] => d
  | q :: qs => (pyMaxBy Prod.snd q qs).1

/-- The JSON payload of `api_ai_best_time` (without the cosmetic
`best_time` string formatting). -/
structure BestTime where
  best_hour : Nat
  best_day : String
  response_count : Nat
  confidence : String
  hour_breakdown : List (Nat × Nat)
  day_breakdown : List (String × Nat)
deriving Repr, DecidableEq

/-- `api_ai_best_time` on the extracted `(hour, day)` pairs of the partner's
inbound messages, in query order.  `none` is the "not enough data" reply. -/
def api_ai_best_time (inbound : List (Nat × String)) : Option BestTime :=
  if inbound.length < 2 then none
  else
    let hours := (inbound.map Prod.fst).foldl histAdd []
    let days := (inbound.map Prod.snd).foldl histAdd []
    some
      { best_hour := bestKey (inbound.map Prod.fst) 10,
        best_day := bestKey (inbound.map Prod.snd) "Tuesday",
        response_count := inbound.length,
        confidence :=
          if 10 ≤ inbound.length then "high"
          else if 5 ≤ inbound.length then "medium" else "low",
        hour_breakdown := hours,
        day_breakdown := days }

/-! ### ActionPrioritizer (`api_ai_next_actions`) and AI-output handling

The message log is appended in chronological order (every insert stamps
`datetime.utcnow()`), so the `order_by(created_at.desc())` query on one
partner is the reverse of the log filtered to that partner. -/

/-- The partner's messages, most recent first. -/
def DB.partnerMessagesDesc (db : DB) (pid : Nat) : List Message :=
  (db.messages.filter (fun m => m.partner_id == pid)).reverse

/-- `Partner.query.filter_by(archived=False, opted_out=False)`. -/
def activePartners (db : DB) : List Partner :=
  db.partners.filter (fun p => !p.archived && !p.opted_out)

/-- One element of the `partner_data` snapshot list sent to the ranker. -/
structure PartnerSnapshot where
  id : Nat
  name : String
  company : Option String
  region : Option String
  status : String
  days_since_contact : Option Int
  last_direction : Option String
  recent_messages : List (String × String)
  notes : Option String
deriving Repr, DecidableEq

/-- `m.body[:100] if m.body else '[Media]'` (empty body is falsy). -/
def excerpt (b : Option String) : String :=
  match b with
  | some s => if s = "" then "[Media]" else s.take 100
  | none => "[Media]"

/-- The snapshot `api_ai_next_actions` builds for one partner from its last
five messages. -/
def partnerSnapshot (db : DB) (now : ℚ) (p : Partner) : PartnerSnapshot :=
  let messages := (db.partnerMessagesDesc p.id).take 5
  match messages with
  | [] =>
      { id := p.id, name := full_name p, company := p.company, region := p.regionName,
        status := "never_contacted", days_since_contact := none, last_direction := none,
        recent_messages := [], notes := p.notes }
  | last :: _ =>
      { id := p.id, name := full_name p, company := p.company, region := p.regionName,
        status := if last.direction == "outbound" then "awaiting_reply" else "needs_response",
        days_since_contact := some ⌊(now - last.created_at) / 24⌋,
        last_direction := some last.direction,
        recent_messages := (messages.take 3).map (fun m => (m.direction, excerpt m.body)),
        notes := p.notes }

/-- The full `partner_data` list, one snapshot per active partner. -/
def partner_data (db : DB) (now : ℚ) : List PartnerSnapshot :=
  (activePartners db).map (partnerSnapshot db now)

/-- The candidate pool embedded in the prompt: `partner_data[:30]`. -/
def aiPool (db : DB) (now : ℚ) : List PartnerSnapshot :=
  (partner_data db now).take 30

/-- One action object expected back from the ranker. -/
structure ActionRec where
  partner_id : Nat
  priority : String
  reason : String
  action : String
  suggested_message : String
deriving Repr, DecidableEq

/-- An action enriched with partner identity fields (absent when the id does
not resolve). -/
structure EnrichedAction where
  base : ActionRec
  partner_name : Option String
  partner_company : Option (Option String)
  partner_phone : Option String
deriving Repr, DecidableEq

def enrichAction (db : DB) (a : ActionRec) : EnrichedAction :=
  match db.getPartner a.partner_id with
  | some p => ⟨a, some (full_name p), some p.company, some p.phone⟩
  | none => ⟨a, none, none, none⟩

/-- Python `text.split('```')` over the character list: a left-to-right,
non-overlapping scan on the triple-backtick separator. -/
def fenceSplit : List Char → List Char → List (List Char)
  | '`' :: '`' :: '`' :: rest, acc => acc.reverse :: fenceSplit rest []
  | c :: rest, acc => fenceSplit rest (c :: acc)
  | [], acc => [acc.reverse]

/-- The fence unwrapping in `api_ai_next_actions`:
`if text.startswith('```'): text = text.split('```')[1];`
`if text.startswith('json'): text = text[4:]`. -/
def stripFences (s : String) : String :=
  if pyStartsWith s "```" then
    let t := String.mk ((fenceSplit s.data []).getD 1 [])
    if pyStartsWith t "json" then String.mk (t.data.drop 4) else t
  else s

/-- `json.loads` (a stdlib capability): `Except.error e` models a raised
`JSONDecodeError` whose `str` is `e`, `Except.ok` a decoded list. -/
abbrev JsonParse (α : Type) := String → Except String (List α)

/-- The response handling of `api_ai_next_actions`: strip the outer
whitespace and fences, parse; a parse failure falls into the generic
`except Exception` handler, which returns the error to the caller (HTTP 500).
On success each action is enriched with partner fields. -/
def nextActionsFromResponse (parseJson : JsonParse ActionRec) (db : DB) (raw : String) :
    Except String (List EnrichedAction) :=
  match parseJson (stripFences (pyStrip raw)) with
  | Except.ok l => Except.ok (l.map (enrichAction db))
  | Except.error e => Except.error e

/-- The static defaults `api_ai_suggestions` returns when `json.loads`
raises `JSONDecodeError`. -/
def suggestionsFallback : List String :=
  ["Thanks for the update!", "Let me look into that for you.", "Can we schedule a quick call?"]

/-- The response handling of `api_ai_suggestions`: parse the stripped text
directly (no fence unwrapping); on `JSONDecodeError` return the static
defaults; on success return the first three suggestions. -/
def suggestionsFromResponse (parseJson : JsonParse String) (raw : String) : List String :=
  match parseJson (pyStrip raw) with
  | Except.ok l => l.take 3
  | Except.error _ => suggestionsFallback

/-! ### Spec-side definitions

These follow the specification's words, for the refinement-style claims; they
are compared against the source-derived definitions above. -/

/-- Spec wording for GhostDetector sampling: a latency is a valid sample iff
it lies in the half-open interval `(0, 168]`. -/
def spec_sample_ok (d : ℚ) : Bool :=
  decide (0 < d) && decide (d ≤ 168)

/-- Spec wording: "for each inbound message, find the nearest preceding
outbound message" — over the whole descending history, parameterised by the
sample-validity test. -/
def spec_response_samples (valid : ℚ → Bool) : List Message → List ℚ
  | [] => []
  | m :: rest =>
      (if m.direction == "inbound" then
        match rest.find? (fun p => p.direction == "outbound") with
        | some prev =>
            let d := m.created_at - prev.created_at
            if valid d then [d] else []
        | none => []
      else []) ++ spec_response_samples valid rest

/-- Spec wording: mean of the valid samples, or the 48-hour fallback. -/
def spec_avg (valid : ℚ → Bool) (msgs : List Message) : ℚ :=
  let s := spec_response_samples valid msgs
  if s.isEmpty then 48 else s.sum / (s.length : ℚ)

/-- Spec wording: a partner (most recent message first in `msgs`) is flagged
iff its last message is outbound and
`hours_waiting > max(2 * avg_response_hours, 48)`. -/
def spec_flagged (valid : ℚ → Bool) (now : ℚ) (msgs : List Message) : Bool :=
  match msgs with
  | [] => false
  | last :: _ =>
      last.direction == "outbound" &&
        decide (now - last.created_at > max (2 * spec_avg valid msgs) 48)

/-- Spec wording for the ResponseTimeAnalyzer tie-break: the lowest hour
value among the hours present with maximal count. -/
def lowest_argmax_hour (hs : List Nat) : Option Nat :=
  ((List.range 24).filter
    (fun h => hs.contains h && hs.all (fun k => decide ((hs.count k) ≤ hs.count h)))).head?

/-! ### Helper lemmas about the dispatch pipeline -/

/-- Forget the one partner field the send path mutates (`last_contacted`);
two partner lists equal under this projection agree on everything the
dispatch logic reads. -/
def Partner.stripLC (p : Partner) : Partner :=
  { p with last_contacted := none }

/-- Well-formedness of the database: unique positive partner ids, unique
phones, unique scheduled-message ids (all enforced by the schema). -/
def DB.wf (db : DB) : Prop :=
  (db.partners.map (fun p => p.id)).Nodup ∧
  (db.partners.map (fun p => p.phone)).Nodup ∧
  (∀ p ∈ db.partners, 0 < p.id) ∧
  (db.scheduled.map (fun s => s.id)).Nodup

instance (db : DB) : Decidable db.wf := by
  unfold DB.wf; infer_instance

theorem stripLC_id (p : Partner) : p.stripLC.id = p.id := rfl

theorem stripLC_phone (p : Partner) : p.stripLC.phone = p.phone := rfl

theorem stripLC_opted (p : Partner) : p.stripLC.opted_out = p.opted_out := rfl

theorem personalize_stripLC (t : String) (p : Partner) :
    personalize_message t p.stripLC = personalize_message t p := rfl

theorem full_name_stripLC (p : Partner) : full_name p.stripLC = full_name p := rfl

theorem touchPartner_stripLC (db : DB) (pid : Nat) (now : ℚ) :
    (db.touchPartner pid now).partners.map Partner.stripLC =
      db.partners.map Partner.stripLC := by
  simp only [DB.touchPartner, List.map_map]
  refine List.map_congr_left (fun p _ => ?_)
  simp only [Function.comp_apply]
  split <;> rfl

theorem log_outbound_partners (db : DB) (now : ℚ) (bd : String)
    (mu mt : Option String) (tw : TwilioMsg) (pid : Option Nat) :
    (log_outbound db now bd mu mt tw pid).partners.map Partner.stripLC =
      db.partners.map Partner.stripLC := by
  rcases pid with _ | n
  · rfl
  · simp only [log_outbound]
    split
    · exact touchPartner_stripLC _ _ _
    · rfl

theorem log_outbound_scheduled (db : DB) (now : ℚ) (bd : String)
    (mu mt : Option String) (tw : TwilioMsg) (pid : Option Nat) :
    (log_outbound db now bd mu mt tw pid).scheduled = db.scheduled := by
  rcases pid with _ | n
  · rfl
  · simp only [log_outbound]
    split <;> rfl

/-- `send_sms` never changes a partner's identity, phone or opt-out flag. -/
theorem send_sms_partners (env : Transport) (cfg : Bool) (db : DB) (now : ℚ)
    (ph bd : String) (pid : Option Nat) (mu mt : Option String) :
    ((send_sms env cfg db now ph bd pid mu mt).2.1).partners.map Partner.stripLC =
      db.partners.map Partner.stripLC := by
  unfold send_sms
  split
  · rfl
  · split
    · rfl
    · rcases h : env ph bd mu with e | tw
      · simp [h]
      · simp only [h]
        exact log_outbound_partners _ _ _ _ _ _ _

/-- `send_sms` does not touch the scheduled-message table. -/
theorem send_sms_scheduled (env : Transport) (cfg : Bool) (db : DB) (now : ℚ)
    (ph bd : String) (pid : Option Nat) (mu mt : Option String) :
    ((send_sms env cfg db now ph bd pid mu mt).2.1).scheduled = db.scheduled := by
  unfold send_sms
  split
  · rfl
  · split
    · rfl
    · rcases h : env ph bd mu with e | tw
      · simp [h]
      · simp only [h]
        exact log_outbound_scheduled _ _ _ _ _ _ _

/-- Every transport call `send_sms` makes goes to the `to_phone` argument. -/
theorem send_sms_calls (env : Transport) (cfg : Bool) (db : DB) (now : ℚ)
    (ph bd : String) (pid : Option Nat) (mu mt : Option String) :
    ∀ c ∈ (send_sms env cfg db now ph bd pid mu mt).2.2, c.to_phone = ph := by
  unfold send_sms
  split
  · simp
  · split
    · simp
    · rcases h : env ph bd mu with e | tw <;> simp [h]

/-- `find?` by id, transported along lists equal up to `stripLC`. -/
theorem find?_id_stripLC {l l' : List Partner}
    (h : l.map Partner.stripLC = l'.map Partner.stripLC) (pid : Nat) :
    Option.map Partner.stripLC (l.find? (fun p => p.id == pid)) =
      Option.map Partner.stripLC (l'.find? (fun p => p.id == pid)) := by
  induction l generalizing l' with
  | nil => cases l' <;> simp_all
  | cons a t ih =>
      cases l' with
      | nil => simp at h
      | cons b t' =>
          simp only [List.map_cons, List.cons.injEq] at h
          obtain ⟨hab, hts⟩ := h
          have hid : a.id = b.id := by
            have := congrArg Partner.id hab; simpa [Partner.stripLC] using this
          by_cases hc : (a.id == pid) = true
          · have hc' : (b.id == pid) = true := by rw [← hid]; exact hc
            simp [List.find?, hc, hc', hab]
          · have hc' : (b.id == pid) = false := by
              rw [Bool.eq_false_iff]; intro hx; rw [← hid] at hx; simp_all
            simp only [List.find?, hc, hc', Bool.false_eq_true, not_false_eq_true]
            exact ih hts

/-- Transfer a partner found in an evolved database back to the initial one,
up to `stripLC`. -/
theorem mem_stripLC_transfer {db0 : DB} {l : List Partner}
    (hdb : l.map Partner.stripLC = db0.partners.map Partner.stripLC)
    {q : Partner} (hq : q ∈ l) :
    ∃ q0 ∈ db0.partners, q0.stripLC = q.stripLC := by
  have h1 : q.stripLC ∈ db0.partners.map Partner.stripLC := by
    rw [← hdb]; exact List.mem_map_of_mem _ hq
  rcases List.mem_map.1 h1 with ⟨q0, hq0, he⟩
  exact ⟨q0, hq0, he⟩

/-- In a well-formed database, a non-opted-out partner never shares a phone
with an opted-out one. -/
theorem phone_ne_of_opted {db0 : DB} (hwf : db0.wf) {p q : Partner}
    (hp : p ∈ db0.partners) (hq : q ∈ db0.partners)
    (hpo : p.opted_out = true) (hqo : q.opted_out = false) : q.phone ≠ p.phone := by
  intro h
  have hqp : q = p := List.inj_on_of_nodup_map hwf.2.1 hq hp h
  rw [hqp, hpo] at hqo
  exact Bool.noConfusion hqo

/-- No transport call of the broadcast loop targets an opted-out partner's
phone, for any database that agrees with the well-formed `db0` on partner
identity fields. -/
theorem api_broadcast_go_no_call (env : Transport) (cfg : Bool) (now : ℚ)
    (tmpl : String) (mu mt : Option String) (db0 : DB) (hwf : db0.wf)
    (p : Partner) (hp : p ∈ db0.partners) (hpo : p.opted_out = true) :
    ∀ (pids : List Nat) (db : DB),
      db.partners.map Partner.stripLC = db0.partners.map Partner.stripLC →
      ∀ c ∈ (api_broadcast_go env cfg now tmpl mu mt db pids).2.2,
        c.to_phone ≠ p.phone := by
  intro pids
  induction pids with
  | nil =>
      intro db hdb c hc
      simp [api_broadcast_go] at hc
  | cons pid rest ih =>
      intro db hdb c hc
      rw [api_broadcast_go] at hc
      cases hq : db.getPartner pid with
      | none =>
          rw [hq] at hc
          exact ih db hdb c hc
      | some q =>
          rw [hq] at hc
          dsimp only [] at hc
          by_cases hqo : q.opted_out = true
          · rw [if_pos hqo] at hc
            exact ih db hdb c hc
          · rw [if_neg hqo] at hc
            simp only [List.mem_cons] at hc
            rcases List.mem_append.1 hc with hcs | hct
            · have hph := send_sms_calls env cfg db now q.phone
                (personalize_message tmpl q) (some q.id) mu mt c hcs
              have hqmem : q ∈ db.partners := List.mem_of_find?_eq_some hq
              obtain ⟨q0, hq0mem, he⟩ := mem_stripLC_transfer hdb hqmem
              have hphone : q0.phone = q.phone := by
                rw [← stripLC_phone q0, he, stripLC_phone]
              have hqf : q.opted_out = false := by
                revert hqo; cases q.opted_out <;> simp
              have hopt : q0.opted_out = false := by
                rw [← stripLC_opted q0, he, stripLC_opted]; exact hqf
              rw [hph, ← hphone]
              exact phone_ne_of_opted hwf hp hq0mem hpo hopt
            · refine ih _ ?_ c hct
              rw [send_sms_partners, hdb]

/-- The batch partner loop preserves partner identity fields. -/
theorem run_batch_partners_partners (env : Transport) (cfg : Bool) (now : ℚ)
    (tmpl : String) (mu mt : Option String) :
    ∀ (pids : List Nat) (db : DB),
      ((run_batch_partners env cfg now tmpl mu mt db pids).1).partners.map Partner.stripLC =
        db.partners.map Partner.stripLC := by
  intro pids
  induction pids with
  | nil => intro db; rfl
  | cons pid rest ih =>
      intro db
      rw [run_batch_partners]
      cases hq : db.getPartner pid with
      | none => exact ih db
      | some q =>
          dsimp only []
          by_cases hqo : q.opted_out = true
          · rw [if_pos hqo]; exact ih db
          · rw [if_neg hqo]
            rw [ih, send_sms_partners]

/-- No transport call of the scheduled-batch partner loop targets an
opted-out partner's phone. -/
theorem run_batch_partners_no_call (env : Transport) (cfg : Bool) (now : ℚ)
    (tmpl : String) (mu mt : Option String) (db0 : DB) (hwf : db0.wf)
    (p : Partner) (hp : p ∈ db0.partners) (hpo : p.opted_out = true) :
    ∀ (pids : List Nat) (db : DB),
      db.partners.map Partner.stripLC = db0.partners.map Partner.stripLC →
      ∀ c ∈ (run_batch_partners env cfg now tmpl mu mt db pids).2,
        c.to_phone ≠ p.phone := by
  intro pids
  induction pids with
  | nil =>
      intro db hdb c hc
      simp [run_batch_partners] at hc
  | cons pid rest ih =>
      intro db hdb c hc
      rw [run_batch_partners] at hc
      cases hq : db.getPartner pid with
      | none =>
          rw [hq] at hc
          exact ih db hdb c hc
      | some q =>
          rw [hq] at hc
          dsimp only [] at hc
          by_cases hqo : q.opted_out = true
          · rw [if_pos hqo] at hc
            exact ih db hdb c hc
          · rw [if_neg hqo] at hc
            rcases List.mem_append.1 hc with hcs | hct
            · have hph := send_sms_calls env cfg db now q.phone
                (personalize_message tmpl q) (some q.id) mu mt c hcs
              have hqmem : q ∈ db.partners := List.mem_of_find?_eq_some hq
              obtain ⟨q0, hq0mem, he⟩ := mem_stripLC_transfer hdb hqmem
              have hphone : q0.phone = q.phone := by
                rw [← stripLC_phone q0, he, stripLC_phone]
              have hqf : q.opted_out = false := by
                revert hqo; cases q.opted_out <;> simp
              have hopt : q0.opted_out = false := by
                rw [← stripLC_opted q0, he, stripLC_opted]; exact hqf
              rw [hph, ← hphone]
              exact phone_ne_of_opted hwf hp hq0mem hpo hopt
            · refine ih _ ?_ c hct
              rw [send_sms_partners, hdb]

theorem setScheduledStatus_partners (db : DB) (sid : Nat) (st : String) :
    (db.setScheduledStatus sid st).partners = db.partners := rfl

/-- No transport call of the outer batch loop targets an opted-out partner's
phone. -/
theorem run_selected_no_call (env : Transport) (cfg : Bool) (now : ℚ)
    (db0 : DB) (hwf : db0.wf)
    (p : Partner) (hp : p ∈ db0.partners) (hpo : p.opted_out = true) :
    ∀ (bs : List ScheduledMessage) (db : DB),
      db.partners.map Partner.stripLC = db0.partners.map Partner.stripLC →
      ∀ c ∈ (run_selected env cfg now db bs).2, c.to_phone ≠ p.phone := by
  intro bs
  induction bs with
  | nil =>
      intro db hdb c hc
      simp [run_selected] at hc
  | cons b rest ih =>
      intro db hdb c hc
      rw [run_selected] at hc
      dsimp only [] at hc
      rcases List.mem_append.1 hc with hcs | hct
      · exact run_batch_partners_no_call env cfg now b.message_template b.media_url
          b.media_type db0 hwf p hp hpo b.partner_ids db hdb c hcs
      · refine ih _ ?_ c hct
        rw [setScheduledStatus_partners, run_batch_partners_partners, hdb]

/-! ### Concrete fixtures -/

def pC1a : Partner :=
  ⟨1, "A", none, none, "+15550001", none, none, none, false, false, none⟩

def pC1opt : Partner :=
  ⟨2, "B", none, none, "+15550002", none, none, none, true, false, none⟩

def dbC1 : DB := ⟨[pC1a, pC1opt], [], [⟨1, "hi", [1, 2], none, none, 0, "pending"⟩]⟩

def envOkFixed : Transport := fun _ _ _ => Except.ok ⟨"SID", "queued"⟩

/-- C1: an opted-out partner is never the target of a transport call, on any
dispatch path — `send_sms` (single send), the broadcast loop, and the
scheduled-batch executor — and the opt-out flag consulted is read from the
database passed at send time (a `ScheduledMessage` stores only partner ids,
never a cached opt-out value). -/
theorem C1_opted_out_never_called :
    (∀ (env : Transport) (cfg : Bool) (db : DB) (now : ℚ) (ph bd : String)
        (pid : Nat) (mu mt : Option String) (p : Partner),
      db.getPartner pid = some p → p.opted_out = true → pid ≠ 0 →
      (send_sms env cfg db now ph bd (some pid) mu mt).2.2 = []) ∧
    (∀ (env : Transport) (cfg : Bool) (db : DB) (now : ℚ) (tmpl : String)
        (pids : List Nat) (mu mt : Option String) (p : Partner),
      db.wf → p ∈ db.partners → p.opted_out = true →
      ∀ c ∈ (api_broadcast env cfg db now tmpl pids mu mt).2.2, c.to_phone ≠ p.phone) ∧
    (∀ (env : Transport) (cfg : Bool) (db : DB) (now : ℚ) (p : Partner),
      db.wf → p ∈ db.partners → p.opted_out = true →
      ∀ c ∈ (send_scheduled_messages env cfg db now).2, c.to_phone ≠ p.phone) := by
  refine ⟨?_, ?_, ?_⟩
  · intro env cfg db now ph bd pid mu mt p hfind hopt hpid
    have hb : (pid != 0) = true := by simpa [bne_iff_ne] using hpid
    have hblock : optout_blocked db (some pid) = true := by
      simp only [optout_blocked, hb, if_true, hfind]
      exact hopt
    unfold send_sms
    split
    · rfl
    · rfl
  · intro env cfg db now tmpl pids mu mt p hwf hp hpo
    exact api_broadcast_go_no_call env cfg now tmpl mu mt db hwf p hp hpo pids db rfl
  · intro env cfg db now p hwf hp hpo
    exact run_selected_no_call env cfg now db hwf p hp hpo (select_due db now) db rfl

/-- Witness for C1 at a concrete database: partner 2 is opted out; the single
send makes no transport call, and neither the broadcast over `[1, 2]` nor the
due scheduled batch targeting `[1, 2]` calls partner 2's phone. -/
theorem C1_witness :
    (dbC1.getPartner 2 = some pC1opt ∧ pC1opt.opted_out = true ∧ (2 : Nat) ≠ 0 ∧
      (send_sms envOkFixed true dbC1 0 "+15550002" "hi" (some 2) none none).2.2 = []) ∧
    (dbC1.wf ∧ pC1opt ∈ dbC1.partners ∧
      ∀ c ∈ (api_broadcast envOkFixed true dbC1 0 "hi" [1, 2] none none).2.2,
        c.to_phone ≠ pC1opt.phone) ∧
    (∀ c ∈ (send_scheduled_messages envOkFixed true dbC1 0).2,
      c.to_phone ≠ pC1opt.phone) :=
  ⟨⟨by decide, by decide, by decide,
      C1_opted_out_never_called.1 envOkFixed true dbC1 0 "+15550002" "hi" 2 none none
        pC1opt (by decide) (by decide) (by decide)⟩,
   ⟨by decide, by decide,
      C1_opted_out_never_called.2.1 envOkFixed true dbC1 0 "hi" [1, 2] none none
        pC1opt (by decide) (by decide) (by decide)⟩,
   C1_opted_out_never_called.2.2 envOkFixed true dbC1 0
      pC1opt (by decide) (by decide) (by decide)⟩

def envSameError : Transport := fun _ _ _ => Except.error "Partner has opted out"

def pC2live : Partner :=
  ⟨1, "A", none, none, "+15550001", none, none, none, false, false, none⟩

def dbC2 : DB := ⟨[pC2live], [], []⟩

/-- C2 (counterexample): the claim says the compliance denial is a result
kind distinguishable from a transport failure.  But `send_sms` encodes the
denial only as the error string `'Partner has opted out'` in the same
`{'success': False, 'error': ...}` shape: a transport exception whose string
is that same text yields, for a partner who has NOT opted out, a result equal
to the denial — after an actual transport call was attempted. -/
theorem C2_counterexample :
    pC2live.opted_out = false ∧
    (send_sms envSameError true dbC2 0 "+15550001" "hi" (some 1) none none).1 = optOutDenial ∧
    (send_sms envSameError true dbC2 0 "+15550001" "hi" (some 1) none none).2.2 =
      [⟨"+15550001", "hi", none⟩] := by
  decide

/-- C2 (amended): for an opted-out partner (configured client), `send_sms`
returns exactly the fixed failure dict with error `'Partner has opted out'`,
leaves the database unchanged (no `Message` appended) and makes no transport
call; this denial is distinguishable from a transport failure only through
the error string, i.e. whenever the transport error text differs from
`'Partner has opted out'`. -/
theorem C2_amended :
    (∀ (env : Transport) (db : DB) (now : ℚ) (ph bd : String) (pid : Nat)
        (mu mt : Option String) (p : Partner),
      db.getPartner pid = some p → p.opted_out = true → pid ≠ 0 →
      send_sms env true db now ph bd (some pid) mu mt = (optOutDenial, db, [])) ∧
    (∀ e, e ≠ "Partner has opted out" →
      ∀ (env : Transport) (db : DB) (now : ℚ) (ph bd : String) (mu mt : Option String),
        env ph bd mu = Except.error e →
        (send_sms env true db now ph bd none mu mt).1 ≠ optOutDenial) := by
  constructor
  · intro env db now ph bd pid mu mt p hfind hopt hpid
    have hb : (pid != 0) = true := by simpa [bne_iff_ne] using hpid
    have hblock : optout_blocked db (some pid) = true := by
      simp only [optout_blocked, hb, if_true, hfind]
      exact hopt
    unfold send_sms
    rw [if_neg (by simp : ¬(true = false)), if_pos hblock]
  · intro e he env db now ph bd mu mt henv
    unfold send_sms
    rw [if_neg (by simp : ¬(true = false))]
    have hblock : optout_blocked db none = false := rfl
    rw [hblock]
    simp only [Bool.false_eq_true, if_false, henv]
    intro hcontra
    exact he (Option.some.inj (congrArg SendResult.error hcontra))

def pC2opt : Partner :=
  ⟨3, "C", none, none, "+15550003", none, none, none, true, false, none⟩

def dbC2opt : DB := ⟨[pC2opt], [], []⟩

def envBoom : Transport := fun _ _ _ => Except.error "boom"

/-- Witness for C2 (amended) at concrete inputs: the denial triple for an
opted-out partner, and a transport failure with a different error string that
is distinguishable from the denial. -/
theorem C2_witness :
    (dbC2opt.getPartner 3 = some pC2opt ∧ pC2opt.opted_out = true ∧ (3 : Nat) ≠ 0 ∧
      send_sms envOkFixed true dbC2opt 5 "+15550003" "hello" (some 3) none none =
        (optOutDenial, dbC2opt, [])) ∧
    ("boom" ≠ "Partner has opted out" ∧ envBoom "+1" "x" none = Except.error "boom" ∧
      (send_sms envBoom true dbC2 0 "+1" "x" none none none).1 ≠ optOutDenial) :=
  ⟨⟨by decide, by decide, by decide,
      C2_amended.1 envOkFixed dbC2opt 5 "+15550003" "hello" 3 none none pC2opt
        (by decide) (by decide) (by decide)⟩,
   ⟨by decide, rfl,
      C2_amended.2 "boom" (by decide) envBoom dbC2 0 "+1" "x" none none rfl⟩⟩

/-! ### Broadcast independence (C6) -/

/-- The outcome `send_sms` produces for one partner, as a function of the
transport environment and that partner's own fields only. -/
def pure_send_result (env : Transport) (cfg : Bool) (tmpl : String)
    (mu : Option String) (p : Partner) : SendResult :=
  if cfg = false then twilioNotConfigured
  else
    match env p.phone (personalize_message tmpl p) mu with
    | Except.error e => { success := false, error := some e, sid := none, status := none }
    | Except.ok tw => { success := true, error := none, sid := some tw.sid, status := some tw.status }

/-- The per-partner result list of a broadcast, computed independently from
the initial database: one entry per existing, non-opted-out id, in order. -/
def broadcast_expected (env : Transport) (cfg : Bool) (db : DB) (tmpl : String)
    (mu : Option String) (pids : List Nat) : List BroadcastEntry :=
  pids.filterMap (fun pid =>
    match db.getPartner pid with
    | some p =>
        if p.opted_out then none
        else some ⟨full_name p, pure_send_result env cfg tmpl mu p⟩
    | none => none)

theorem getPartner_id {db : DB} {pid : Nat} {q : Partner}
    (hq : db.getPartner pid = some q) : q.id = pid := by
  have := List.find?_some hq
  simpa using this

theorem optout_blocked_of_found {db : DB} {pid : Nat} {q : Partner}
    (hq : db.getPartner pid = some q) (hqo : q.opted_out = false) :
    optout_blocked db (some q.id) = false := by
  simp only [optout_blocked]
  split
  · rw [getPartner_id hq, hq]
    exact hqo
  · rfl

/-- For a partner found in the current database and not opted out, the result
component of `send_sms` depends only on `cfg` and the transport outcome. -/
theorem send_sms_fst (env : Transport) (cfg : Bool) (db : DB) (now : ℚ)
    (bd : String) (mu mt : Option String) {pid : Nat} {q : Partner}
    (hq : db.getPartner pid = some q) (hqo : q.opted_out = false) :
    (send_sms env cfg db now q.phone bd (some q.id) mu mt).1 =
      (if cfg = false then twilioNotConfigured
       else
        match env q.phone bd mu with
        | Except.error e => { success := false, error := some e, sid := none, status := none }
        | Except.ok tw =>
            { success := true, error := none, sid := some tw.sid, status := some tw.status }) := by
  unfold send_sms
  rw [optout_blocked_of_found hq hqo]
  by_cases hcfg : cfg = false
  · rw [if_pos hcfg, if_pos hcfg]
  · rw [if_neg hcfg, if_neg hcfg, if_neg (by simp : ¬(false = true))]
    cases env q.phone bd mu <;> rfl

/-- The broadcast result list equals the independent per-partner list
computed from any database agreeing on partner identity fields. -/
theorem api_broadcast_go_results (env : Transport) (cfg : Bool) (now : ℚ)
    (tmpl : String) (mu mt : Option String) (db0 : DB) :
    ∀ (pids : List Nat) (db : DB),
      db.partners.map Partner.stripLC = db0.partners.map Partner.stripLC →
      (api_broadcast_go env cfg now tmpl mu mt db pids).1 =
        broadcast_expected env cfg db0 tmpl mu pids := by
  intro pids
  induction pids with
  | nil => intro db hdb; rfl
  | cons pid rest ih =>
      intro db hdb
      rw [api_broadcast_go]
      rw [broadcast_expected, List.filterMap_cons]
      have htr : Option.map Partner.stripLC (db.getPartner pid) =
          Option.map Partner.stripLC (db0.getPartner pid) := find?_id_stripLC hdb pid
      cases h0 : db0.getPartner pid with
      | none =>
          rw [h0] at htr
          have hnone : db.getPartner pid = none := by
            cases hx : db.getPartner pid
            · rfl
            · rw [hx] at htr; simp at htr
          rw [hnone]
          exact ih db hdb
      | some p0 =>
          rw [h0] at htr
          cases hx : db.getPartner pid with
          | none => rw [hx] at htr; simp at htr
          | some q =>
              rw [hx] at htr
              have he : q.stripLC = p0.stripLC := by simpa using htr
              have hopteq : q.opted_out = p0.opted_out := by
                rw [← stripLC_opted q, he, stripLC_opted]
              dsimp only []
              by_cases hqo : p0.opted_out = true
              · rw [if_pos (by rw [hopteq]; exact hqo), if_pos hqo]
                exact ih db hdb
              · have hqf : q.opted_out = false := by
                  rw [hopteq]; revert hqo; cases p0.opted_out <;> simp
                rw [if_neg (by rw [hopteq]; exact hqo), if_neg hqo]
                have hname : full_name q = full_name p0 := by
                  rw [← full_name_stripLC q, he, full_name_stripLC]
                have hpers : personalize_message tmpl q = personalize_message tmpl p0 := by
                  rw [← personalize_stripLC tmpl q, he, personalize_stripLC]
                have hphone : q.phone = p0.phone := by
                  rw [← stripLC_phone q, he, stripLC_phone]
                have hres : (send_sms env cfg db now q.phone (personalize_message tmpl q)
                    (some q.id) mu mt).1 = pure_send_result env cfg tmpl mu p0 := by
                  rw [send_sms_fst env cfg db now (personalize_message tmpl q) mu mt hx hqf]
                  rw [pure_send_result, hpers, hphone]
                rw [hres, hname]
                dsimp only []
                congr 1
                refine ih _ ?_
                rw [send_sms_partners, hdb]

def pC6a : Partner :=
  ⟨1, "A", none, none, "+15550001", none, none, none, false, false, none⟩

def pC6opt : Partner :=
  ⟨2, "B", none, none, "+15550002", none, none, none, true, false, none⟩

def pC6b : Partner :=
  ⟨2, "B", none, none, "+15550002", none, none, none, false, false, none⟩

def dbC6 : DB := ⟨[pC6a, pC6opt], [], []⟩

def dbC6ab : DB := ⟨[pC6a, pC6b], [], []⟩

/-- The transport for the `[A fails, B succeeds]` scenario. -/
def envC6 : Transport := fun t _ _ =>
  if t == "+15550001" then Except.error "HTTP 500" else Except.ok ⟨"SID2", "queued"⟩

/-- C6 (counterexample): a broadcast over a single opted-out partner returns
an empty result list — no per-partner entry and no denial result is produced
for the opted-out partner, contradicting the claim that every input partner
yields a result. -/
theorem C6_counterexample :
    (dbC6.getPartner 2).map (fun p => p.opted_out) = some true ∧
    (api_broadcast envOkFixed true dbC6 0 "hi" [2] none none).1 = [] := by
  decide

/-- C6 (amended): `send_broadcast` isolates failures — the result list equals
the per-partner outcomes computed independently for each id from the initial
database, so one partner's transport error never changes another's entry; in
particular `[A fails transport, B succeeds]` still yields a success entry for
B.  However, opted-out and unknown partner ids are silently skipped: they get
no entry at all (no denial result) rather than a per-partner denial. -/
theorem C6_amended :
    (∀ (env : Transport) (cfg : Bool) (db : DB) (now : ℚ) (tmpl : String)
        (pids : List Nat) (mu mt : Option String),
      (api_broadcast env cfg db now tmpl pids mu mt).1 =
        broadcast_expected env cfg db tmpl mu pids) ∧
    (api_broadcast envC6 true dbC6ab 0 "hi" [1, 2] none none).1 =
      [⟨"A", { success := false, error := some "HTTP 500", sid := none, status := none }⟩,
       ⟨"B", { success := true, error := none, sid := some "SID2", status := some "queued" }⟩] := by
  constructor
  · intro env cfg db now tmpl pids mu mt
    exact api_broadcast_go_results env cfg now tmpl mu mt db pids db rfl
  · decide

/-! ### Scheduled-batch claiming (C3) and status lifecycle (C4) -/

def pC3 : Partner :=
  ⟨1, "A", none, none, "+15550001", none, none, none, false, false, none⟩

def dbC3 : DB := ⟨[pC3], [], [⟨1, "hi", [1], none, none, 0, "pending"⟩]⟩

/-- C3: `send_scheduled_messages` performs no claim: the pending batches are
selected first and a batch's status is set to `sent` only after all its sends
are done.  A single invocation sends once to partner 1; but when two
overlapping invocations both run the selection query while the batch is still
`pending` (the modelled interleaving below), each processes the same batch
and partner 1's phone receives two transport calls for the one batch. -/
theorem C3_overlap_double_send :
    ((send_scheduled_messages envOkFixed true dbC3 0).2.filter
      (fun c => c.to_phone == "+15550001")).length = 1 ∧
    (((run_selected envOkFixed true 0 dbC3 (select_due dbC3 0)).2 ++
        (run_selected envOkFixed true 0
          (run_selected envOkFixed true 0 dbC3 (select_due dbC3 0)).1
          (select_due dbC3 0)).2).filter
      (fun c => c.to_phone == "+15550001")).length = 2 := by
  decide

/-- `run_batch_partners` never touches the scheduled table. -/
theorem run_batch_partners_scheduled (env : Transport) (cfg : Bool) (now : ℚ)
    (tmpl : String) (mu mt : Option String) :
    ∀ (pids : List Nat) (db : DB),
      ((run_batch_partners env cfg now tmpl mu mt db pids).1).scheduled = db.scheduled := by
  intro pids
  induction pids with
  | nil => intro db; rfl
  | cons pid rest ih =>
      intro db
      rw [run_batch_partners]
      cases hq : db.getPartner pid with
      | none => exact ih db
      | some q =>
          dsimp only []
          by_cases hqo : q.opted_out = true
          · rw [if_pos hqo]; exact ih db
          · rw [if_neg hqo]
            rw [ih, send_sms_scheduled]

/-- Mark already-processed batch ids as sent. -/
def markSent (ids : List Nat) (l : List ScheduledMessage) : List ScheduledMessage :=
  l.map (fun s => if s.id ∈ ids then { s with status := "sent" } else s)

/-- The scheduled table after the batch loop: every selected id is `sent`,
all other rows untouched. -/
theorem run_selected_scheduled (env : Transport) (cfg : Bool) (now : ℚ) :
    ∀ (bs : List ScheduledMessage) (db : DB),
      ((run_selected env cfg now db bs).1).scheduled = markSent (bs.map (fun b => b.id)) db.scheduled := by
  intro bs
  induction bs with
  | nil =>
      intro db
      simp [run_selected, markSent]
  | cons b rest ih =>
      intro db
      rw [run_selected]
      dsimp only []
      rw [ih]
      rw [DB.setScheduledStatus]
      dsimp only []
      rw [run_batch_partners_scheduled]
      simp only [markSent, List.map_map, List.map_cons]
      refine List.map_congr_left (fun s _ => ?_)
      simp only [Function.comp_apply]
      by_cases hs : s.id = b.id
      · have hb : (s.id == b.id) = true := by simpa using hs
        rw [if_pos hb]
        have h1 : ({ s with status := "sent" } : ScheduledMessage).id = s.id := rfl
        by_cases hm : s.id ∈ rest.map (fun b => b.id)
        · rw [if_pos (h1 ▸ hm), if_pos (List.mem_cons_of_mem _ hm)]
        · rw [if_neg (h1 ▸ hm), if_pos (by rw [hs]; exact List.mem_cons_self _ _)]
      · have hb : ¬((s.id == b.id) = true) := by simpa using hs
        rw [if_neg hb]
        by_cases hm : s.id ∈ rest.map (fun b => b.id)
        · rw [if_pos hm, if_pos (List.mem_cons_of_mem _ hm)]
        · rw [if_neg hm, if_neg (by
            intro hcons
            rcases List.mem_cons.1 hcons with h | h
            · exact hs h
            · exact hm h)]

/-- The current status of a scheduled message, by id. -/
def statusOf (db : DB) (sid : Nat) : Option String :=
  (db.scheduled.find? (fun s => s.id == sid)).map (fun s => s.status)

def dbC4 : DB := ⟨[], [], [⟨1, "x", [], none, none, 0, "sent"⟩]⟩

/-- C4 (counterexample): the scheduled-message delete endpoint sets
`status = 'cancelled'` without checking the current status, so a batch that
is already `sent` — supposedly terminal — transitions to `cancelled`. -/
theorem C4_counterexample :
    statusOf dbC4 1 = some "sent" ∧
    (api_scheduled_delete dbC4 1).map (fun d => statusOf d 1) = some (some "cancelled") := by
  decide

/-- C4 (amended): the batch executor transitions exactly the selected batches
(`pending` and due) to `sent` and never touches any other status — so `sent`
and `cancelled` are terminal for the executor and `pending → sent` happens at
most once per row under sequential execution; the delete endpoint, however,
sets the target row to `cancelled` unconditionally, including rows already
`sent` or `cancelled` (only the target row is affected). -/
theorem C4_amended :
    (∀ (env : Transport) (cfg : Bool) (db : DB) (now : ℚ),
      (db.scheduled.map (fun s => s.id)).Nodup →
      ∀ s ∈ db.scheduled,
        ∃ s' ∈ ((send_scheduled_messages env cfg db now).1).scheduled,
          s'.id = s.id ∧
          s'.status =
            (if s.status = "pending" ∧ s.scheduled_time ≤ now then "sent" else s.status)) ∧
    (∀ (db : DB) (sid : Nat) (db' : DB),
      api_scheduled_delete db sid = some db' →
      ∀ s ∈ db.scheduled,
        ∃ s' ∈ db'.scheduled,
          s'.id = s.id ∧ s'.status = (if s.id = sid then "cancelled" else s.status)) := by
  constructor
  · intro env cfg db now hnd s hs
    rw [send_scheduled_messages, run_selected_scheduled]
    by_cases hsel : s.id ∈ (select_due db now).map (fun b => b.id)
    · refine ⟨{ s with status := "sent" }, ?_, rfl, ?_⟩
      · rw [markSent]
        have : (fun t => if t.id ∈ (select_due db now).map (fun b => b.id) then
            ({ t with status := "sent" } : ScheduledMessage) else t) s =
            { s with status := "sent" } := by dsimp only []; rw [if_pos hsel]
        rw [← this]
        exact List.mem_map_of_mem _ hs
      · rcases List.mem_map.1 hsel with ⟨t, ht, hid⟩
        have htdb : t ∈ db.scheduled := List.mem_of_mem_filter ht
        have hts : t = s := List.inj_on_of_nodup_map hnd htdb hs hid
        have hpred := List.of_mem_filter ht
        rw [hts] at hpred
        simp only [Bool.and_eq_true, beq_iff_eq, decide_eq_true_eq] at hpred
        rw [if_pos hpred]
    · refine ⟨s, ?_, rfl, ?_⟩
      · rw [markSent]
        have : (fun t => if t.id ∈ (select_due db now).map (fun b => b.id) then
            ({ t with status := "sent" } : ScheduledMessage) else t) s = s := by
          dsimp only []; rw [if_neg hsel]
        rw [← this]
        exact List.mem_map_of_mem _ hs
      · rw [if_neg ?_]
        intro hpred
        refine hsel ?_
        refine List.mem_map_of_mem _ ?_
        rw [select_due, List.mem_filter]
        refine ⟨hs, ?_⟩
        simp only [Bool.and_eq_true, beq_iff_eq, decide_eq_true_eq]
        exact hpred
  · intro db sid db' hdel s hs
    rw [api_scheduled_delete] at hdel
    cases hf : db.scheduled.find? (fun s => s.id == sid) with
    | none => rw [hf] at hdel; exact Option.noConfusion hdel
    | some t =>
        rw [hf] at hdel
        have hdb' : db' = db.setScheduledStatus sid "cancelled" :=
          (Option.some.inj hdel).symm
        subst hdb'
        rw [DB.setScheduledStatus]
        by_cases hid : s.id = sid
        · refine ⟨{ s with status := "cancelled" }, ?_, rfl, by rw [if_pos hid]⟩
          have : (fun u => if u.id == sid then
              ({ u with status := "cancelled" } : ScheduledMessage) else u) s =
              { s with status := "cancelled" } := by
            dsimp only []; rw [if_pos (by simpa using hid)]
          rw [← this]
          exact List.mem_map_of_mem _ hs
        · refine ⟨s, ?_, rfl, by rw [if_neg hid]⟩
          have : (fun u => if u.id == sid then
              ({ u with status := "cancelled" } : ScheduledMessage) else u) s = s := by
            dsimp only []; rw [if_neg (by simpa using hid)]
          rw [← this]
          exact List.mem_map_of_mem _ hs

def dbC4w : DB :=
  ⟨[], [],
    [⟨1, "x", [], none, none, 0, "sent"⟩,
     ⟨2, "y", [], none, none, 0, "pending"⟩,
     ⟨3, "z", [], none, none, 100, "pending"⟩,
     ⟨4, "w", [], none, none, 0, "cancelled"⟩]⟩

/-- Witness for C4 (amended) at a concrete database holding a sent, a due
pending, a future pending, and a cancelled batch. -/
theorem C4_witness :
    ((dbC4w.scheduled.map (fun s => s.id)).Nodup ∧
      ∀ s ∈ dbC4w.scheduled,
        ∃ s' ∈ ((send_scheduled_messages envOkFixed true dbC4w 0).1).scheduled,
          s'.id = s.id ∧
          s'.status =
            (if s.status = "pending" ∧ s.scheduled_time ≤ 0 then "sent" else s.status)) ∧
    (api_scheduled_delete dbC4 1 = some (dbC4.setScheduledStatus 1 "cancelled") ∧
      ∀ s ∈ dbC4.scheduled,
        ∃ s' ∈ (dbC4.setScheduledStatus 1 "cancelled").scheduled,
          s'.id = s.id ∧ s'.status = (if s.id = 1 then "cancelled" else s.status)) :=
  ⟨⟨by decide, C4_amended.1 envOkFixed true dbC4w 0 (by decide)⟩,
   ⟨by decide, C4_amended.2 dbC4 1 (dbC4.setScheduledStatus 1 "cancelled") (by decide)⟩⟩

/-! ### GhostDetector claims (C5) -/

/-- The source's pairing loop over `messages[:-1]` collects exactly the
samples of the spec-style walk over the whole history: the excluded last
(oldest) message can never have a preceding outbound message anyway. -/
theorem response_times_eq :
    ∀ msgs, response_times msgs = spec_response_samples ghost_sample_ok msgs := by
  intro msgs
  induction msgs with
  | nil => rfl
  | cons m rest ih =>
      cases rest with
      | nil =>
          cases hm : m.direction == "inbound" <;>
            simp [response_times, spec_response_samples, hm]
      | cons r rs =>
          rw [response_times, spec_response_samples, ih]

def pC5 : Partner :=
  ⟨1, "A", none, none, "+15550001", none, none, none, false, false, none⟩

def ghostOut (t : ℚ) : Message :=
  ⟨1, "outbound", some "hi", none, none, some "queued", some "S", t⟩

def ghostIn (t : ℚ) : Message :=
  ⟨1, "inbound", some "yo", none, none, some "received", none, t⟩

def msgsC5 : List Message := [ghostOut 1000, ghostIn 168, ghostOut 0]

/-- C5 (counterexample): the claim fails on the code twice.  (i) A latency of
exactly 168 hours is rejected by the source (`delta < 168` is strict), so for
the history below the code flags (no valid sample, fallback average 48,
waiting 200 > 96) while the claim's rule with the closed interval `(0, 168]`
does not flag (average 168, threshold 336).  (ii) The claim's 50-hour example
contradicts its own rule: with no samples the threshold is
`max(2 * 48, 48) = 96`, so 50 hours of waiting is not flagged at all. -/
theorem C5_counterexample :
    ((ghost_check 1200 pC5 msgsC5).isSome = true ∧
      spec_flagged spec_sample_ok 1200 msgsC5 = false) ∧
    ghost_check 50 pC5 [ghostOut 0] = none := by
  refine ⟨⟨?_, ?_⟩, ?_⟩
  · simp +decide [ghost_check, avg_response_hours, response_times, ghost_sample_ok,
      msgsC5, ghostOut, ghostIn, List.find?]
    norm_num
  · simp +decide [spec_flagged, spec_avg, spec_response_samples, spec_sample_ok,
      msgsC5, ghostOut, ghostIn, List.find?]
    norm_num
  · simp +decide [ghost_check, avg_response_hours, response_times, ghost_sample_ok,
      ghostOut]
    norm_num

/-- C5 (amended): for every partner whose most recent message is outbound,
the code flags iff `hours_waiting > max(2 * avg_response_hours, 48)` where a
latency sample is valid iff it lies in the OPEN interval `(0, 168)` (one of
exactly 168 hours is discarded) and `avg_response_hours` falls back to 48
with no samples; a partner with last outbound 50 hours ago and no samples is
NOT flagged (50 < 96); at 100 hours it is flagged with `days_waiting = 4` and
urgency `medium`. -/
theorem C5_amended :
    (∀ (now : ℚ) (p : Partner) (msgs : List Message),
      (ghost_check now p msgs).isSome = spec_flagged ghost_sample_ok now msgs) ∧
    (ghost_check 50 pC5 [ghostOut 0] = none ∧
      ghost_check 100 pC5 [ghostOut 0] =
        some { partner_id := 1, days_waiting := 4, avg_hours := 48, urgency := "medium" }) := by
  refine ⟨?_, ?_, ?_⟩
  case refine_2 =>
    simp +decide [ghost_check, avg_response_hours, response_times, ghost_sample_ok, ghostOut]
    norm_num
  case refine_3 =>
    simp +decide [ghost_check, avg_response_hours, response_times, ghost_sample_ok, ghostOut, pC5]
    norm_num [Int.floor_eq_iff]
  intro now p msgs
  cases msgs with
  | nil => rfl
  | cons last tl =>
      have havg : avg_response_hours (last :: tl) = spec_avg ghost_sample_ok (last :: tl) := by
        rw [avg_response_hours, spec_avg, response_times_eq]
      rw [ghost_check, spec_flagged]
      cases hdir : last.direction == "outbound" with
      | false =>
          have hb : (last.direction != "outbound") = true := by
            simp [bne, hdir]
          rw [if_pos hb]
          simp
      | true =>
          have hb : (last.direction != "outbound") = false := by
            simp [bne, hdir]
          rw [hb]
          simp only [Bool.false_eq_true, if_false, Bool.true_and]
          rw [havg, mul_comm]
          by_cases hc : now - last.created_at > max (2 * spec_avg ghost_sample_ok (last :: tl)) 48
          · rw [if_pos hc]
            simp [hc]
          · rw [if_neg hc]
            simp [hc]

/-! ### ResponseTimeAnalyzer claims (C7) -/

/-- Occurrences of `a` in `l`. -/
def occCount [DecidableEq α] (l : List α) (a : α) : Nat :=
  (l.filter (fun b => decide (b = a))).length

/-- The distinct elements of `l` in first-occurrence order (Python dict key
order after inserting the elements of `l` one by one). -/
def firstOcc [DecidableEq α] (l : List α) : List α :=
  l.foldl (fun acc k => if k ∈ acc then acc else acc ++ [k]) []

theorem occCount_append [DecidableEq α] (l1 l2 : List α) (a : α) :
    occCount (l1 ++ l2) a = occCount l1 a + occCount l2 a := by
  simp [occCount, List.filter_append]

theorem occCount_singleton [DecidableEq α] (b a : α) :
    occCount [b] a = if b = a then 1 else 0 := by
  by_cases h : b = a <;> simp [occCount, List.filter, h]

theorem occCount_eq_zero [DecidableEq α] {l : List α} {a : α} (h : a ∉ l) :
    occCount l a = 0 := by
  simp only [occCount, List.length_eq_zero, List.filter_eq_nil_iff]
  intro b hb
  simp only [decide_eq_true_eq]
  intro hba
  exact h (hba ▸ hb)

theorem mem_foldl_occ [DecidableEq α] (l : List α) :
    ∀ (acc : List α) (a : α),
      a ∈ l.foldl (fun acc k => if k ∈ acc then acc else acc ++ [k]) acc ↔
        a ∈ acc ∨ a ∈ l := by
  induction l with
  | nil => intro acc a; simp
  | cons x t ih =>
      intro acc a
      rw [List.foldl_cons, ih]
      by_cases hx : x ∈ acc
      · rw [if_pos hx]
        constructor
        · rintro (h | h)
          · exact Or.inl h
          · exact Or.inr (List.mem_cons_of_mem _ h)
        · rintro (h | h)
          · exact Or.inl h
          · rcases List.mem_cons.1 h with h | h
            · exact Or.inl (h ▸ hx)
            · exact Or.inr h
      · rw [if_neg hx]
        constructor
        · rintro (h | h)
          · rcases List.mem_append.1 h with h | h
            · exact Or.inl h
            · exact Or.inr (List.mem_cons.2 (Or.inl (List.mem_singleton.1 h)))
          · exact Or.inr (List.mem_cons_of_mem _ h)
        · rintro (h | h)
          · exact Or.inl (List.mem_append.2 (Or.inl h))
          · rcases List.mem_cons.1 h with h | h
            · exact Or.inl (List.mem_append.2 (Or.inr (List.mem_singleton.2 h)))
            · exact Or.inr h

theorem mem_firstOcc [DecidableEq α] {l : List α} {a : α} :
    a ∈ firstOcc l ↔ a ∈ l := by
  rw [firstOcc, mem_foldl_occ]
  simp

theorem firstOcc_append_singleton [DecidableEq α] (l : List α) (x : α) :
    firstOcc (l ++ [x]) =
      if x ∈ l then firstOcc l else firstOcc l ++ [x] := by
  have h1 : firstOcc (l ++ [x]) =
      if x ∈ firstOcc l then firstOcc l else firstOcc l ++ [x] := by
    rw [firstOcc, List.foldl_append, List.foldl_cons, List.foldl_nil]
    rfl
  rw [h1]
  by_cases hx : x ∈ l
  · rw [if_pos (mem_firstOcc.2 hx), if_pos hx]
  · rw [if_neg (fun hm => hx (mem_firstOcc.1 hm)), if_neg hx]

/-- The insertion-ordered histogram built by `histAdd` pairs the distinct
keys, in first-occurrence order, with their occurrence counts. -/
theorem hist_eq [DecidableEq α] (l : List α) :
    l.foldl histAdd [] = (firstOcc l).map (fun k => (k, occCount l k)) := by
  induction l using List.reverseRecOn with
  | nil => rfl
  | append_singleton l x ih =>
      rw [List.foldl_append, List.foldl_cons, List.foldl_nil, ih,
        firstOcc_append_singleton]
      by_cases hx : x ∈ l
      · rw [if_pos hx]
        have hany : (((firstOcc l).map (fun k => (k, occCount l k))).any
            (fun q => decide (q.1 = x))) = true := by
          rw [List.any_eq_true]
          exact ⟨(x, occCount l x),
            List.mem_map_of_mem _ (mem_firstOcc.2 hx), by simp⟩
        rw [histAdd, if_pos hany, List.map_map]
        refine List.map_congr_left (fun k hk => ?_)
        simp only [Function.comp_apply]
        by_cases hkx : k = x
        · rw [if_pos hkx, occCount_append, occCount_singleton, if_pos hkx.symm]
        · rw [if_neg hkx, occCount_append, occCount_singleton,
            if_neg (fun h => hkx h.symm), Nat.add_zero]
      · rw [if_neg hx]
        have hany : (((firstOcc l).map (fun k => (k, occCount l k))).any
            (fun q => decide (q.1 = x))) = false := by
          rw [Bool.eq_false_iff]
          intro hc
          rw [List.any_eq_true] at hc
          rcases hc with ⟨q, hq, hqx⟩
          rcases List.mem_map.1 hq with ⟨k, hk, rfl⟩
          simp only [decide_eq_true_eq] at hqx
          exact hx (hqx ▸ mem_firstOcc.1 hk)
        rw [histAdd, hany, List.map_append]
        simp only [Bool.false_eq_true, if_false]
        congr 1
        · refine List.map_congr_left (fun k hk => ?_)
          have hkx : k ≠ x := fun h => hx (h ▸ mem_firstOcc.1 hk)
          rw [occCount_append, occCount_singleton, if_neg (fun h => hkx h.symm),
            Nat.add_zero]
        · rw [List.map_singleton, occCount_append, occCount_eq_zero hx,
            occCount_singleton, if_pos rfl]

theorem pyMaxBy_cons (f : α → Nat) (a y : α) (l : List α) :
    pyMaxBy f a (y :: l) = pyMaxBy f (if f a < f y then y else a) l := rfl

theorem pyMaxBy_le_self (f : α → Nat) :
    ∀ (l : List α) (a : α), f a ≤ f (pyMaxBy f a l) := by
  intro l
  induction l with
  | nil => intro a; exact Nat.le_refl _
  | cons y t ih =>
      intro a
      rw [pyMaxBy_cons]
      by_cases h : f a < f y
      · rw [if_pos h]
        exact Nat.le_trans (Nat.le_of_lt h) (ih y)
      · rw [if_neg h]
        exact ih a

theorem pyMaxBy_mem (f : α → Nat) :
    ∀ (l : List α) (a : α), pyMaxBy f a l ∈ a :: l := by
  intro l
  induction l with
  | nil => intro a; simp [pyMaxBy]
  | cons y t ih =>
      intro a
      rw [pyMaxBy_cons]
      by_cases h : f a < f y
      · rw [if_pos h]
        rcases List.mem_cons.1 (ih y) with h1 | h1
        · rw [h1]
          exact List.mem_cons_of_mem _ (List.mem_cons_self _ _)
        · exact List.mem_cons_of_mem _ (List.mem_cons_of_mem _ h1)
      · rw [if_neg h]
        rcases List.mem_cons.1 (ih a) with h1 | h1
        · rw [h1]
          exact List.mem_cons_self _ _
        · exact List.mem_cons_of_mem _ (List.mem_cons_of_mem _ h1)

theorem pyMaxBy_le (f : α → Nat) :
    ∀ (l : List α) (a : α), ∀ b ∈ a :: l, f b ≤ f (pyMaxBy f a l) := by
  intro l
  induction l with
  | nil =>
      intro a b hb
      rcases List.mem_cons.1 hb with h | h
      · exact h ▸ Nat.le_refl _
      · simp at h
  | cons y t ih =>
      intro a b hb
      rw [pyMaxBy_cons]
      rcases List.mem_cons.1 hb with h | h
      · subst h
        by_cases hy : f b < f y
        · rw [if_pos hy]
          exact Nat.le_trans (Nat.le_of_lt hy) (pyMaxBy_le_self f t y)
        · rw [if_neg hy]
          exact pyMaxBy_le_self f t b
      · rcases List.mem_cons.1 h with h1 | h1
        · subst h1
          by_cases hy : f a < f b
          · rw [if_pos hy]
            exact pyMaxBy_le_self f t b
          · rw [if_neg hy]
            exact Nat.le_trans (Nat.le_of_not_lt hy) (pyMaxBy_le_self f t a)
        · by_cases hy : f a < f y
          · rw [if_pos hy]
            exact ih y b (List.mem_cons_of_mem _ h1)
          · rw [if_neg hy]
            exact ih a b (List.mem_cons_of_mem _ h1)

/-- Python `max` keeps the earliest element among those attaining the
maximal key: if nothing beats the seed, the seed is returned; otherwise the
result is the first element of the tail attaining the maximum. -/
theorem pyMaxBy_first (f : α → Nat) :
    ∀ (l : List α) (a : α),
      (f (pyMaxBy f a l) ≤ f a → pyMaxBy f a l = a) ∧
      (f a < f (pyMaxBy f a l) →
        l.find? (fun b => decide (f (pyMaxBy f a l) ≤ f b)) = some (pyMaxBy f a l)) := by
  intro l
  induction l with
  | nil =>
      intro a
      exact ⟨fun _ => rfl, fun h => absurd h (Nat.lt_irrefl _)⟩
  | cons y t ih =>
      intro a
      rw [pyMaxBy_cons]
      by_cases hy : f a < f y
      · rw [if_pos hy]
        constructor
        · intro hle
          exact absurd (Nat.lt_of_lt_of_le hy (Nat.le_trans (pyMaxBy_le_self f t y) hle))
            (Nat.lt_irrefl _)
        · intro _
          by_cases hm : f (pyMaxBy f y t) ≤ f y
          · have heq : pyMaxBy f y t = y := (ih y).1 hm
            rw [heq]
            exact List.find?_cons_of_pos _ (by simp)
          · have hlt : f y < f (pyMaxBy f y t) := Nat.lt_of_not_le hm
            rw [List.find?_cons_of_neg _ (by simpa using hm)]
            exact (ih y).2 hlt
      · rw [if_neg hy]
        constructor
        · exact (ih a).1
        · intro hlt
          have hyle : f y ≤ f a := Nat.le_of_not_lt hy
          have hylt : f y < f (pyMaxBy f a t) := Nat.lt_of_le_of_lt hyle hlt
          rw [List.find?_cons_of_neg _ (by simpa using Nat.not_le_of_lt hylt)]
          exact (ih a).2 hlt

theorem pyMaxBy_find? (f : α → Nat) (l : List α) (a : α) :
    (a :: l).find? (fun b => decide (f (pyMaxBy f a l) ≤ f b)) = some (pyMaxBy f a l) := by
  by_cases ha : f (pyMaxBy f a l) ≤ f a
  · have heq : pyMaxBy f a l = a := (pyMaxBy_first f l a).1 ha
    rw [heq]
    exact List.find?_cons_of_pos _ (by simp)
  · rw [List.find?_cons_of_neg _ (by simpa using ha)]
    exact (pyMaxBy_first f l a).2 (Nat.lt_of_not_le ha)

theorem pyMaxBy_map (g : β → Nat) (f : α → β) :
    ∀ (l : List α) (a : α),
      pyMaxBy g (f a) (l.map f) = f (pyMaxBy (fun x => g (f x)) a l) := by
  intro l
  induction l with
  | nil => intro a; rfl
  | cons y t ih =>
      intro a
      rw [List.map_cons, pyMaxBy_cons, pyMaxBy_cons]
      by_cases h : g (f a) < g (f y)
      · rw [if_pos h, if_pos h]
        exact ih y
      · rw [if_neg h, if_neg h]
        exact ih a

/-- `bestKey` returns a key of maximal count, and precisely the first such
key in first-occurrence order. -/
theorem bestKey_spec [DecidableEq α] (l : List α) (d : α) (hl : l ≠ []) :
    bestKey l d ∈ l ∧
    (∀ k ∈ l, occCount l k ≤ occCount l (bestKey l d)) ∧
    (firstOcc l).find? (fun h => decide (occCount l (bestKey l d) ≤ occCount l h)) =
      some (bestKey l d) := by
  have hne : firstOcc l ≠ [] := by
    rcases List.exists_mem_of_ne_nil l hl with ⟨a, ha⟩
    intro hcon
    have : a ∈ firstOcc l := mem_firstOcc.2 ha
    rw [hcon] at this
    simp at this
  rcases hfo : firstOcc l with _ | ⟨x, xs⟩
  · exact absurd hfo hne
  · have hb : bestKey l d = pyMaxBy (fun k => occCount l k) x xs := by
      rw [bestKey, hist_eq, hfo, List.map_cons]
      dsimp only []
      rw [pyMaxBy_map (Prod.snd) (fun k => (k, occCount l k)) xs x]
    have hmem : pyMaxBy (fun k => occCount l k) x xs ∈ x :: xs :=
      pyMaxBy_mem _ xs x
    refine ⟨?_, ?_, ?_⟩
    · rw [hb]
      exact mem_firstOcc.1 (hfo ▸ hmem)
    · intro k hk
      rw [hb]
      have hkfo : k ∈ x :: xs := hfo ▸ mem_firstOcc.2 hk
      exact pyMaxBy_le _ xs x k hkfo
    · rw [hb]
      exact pyMaxBy_find? (fun k => occCount l k) xs x

def inbC7 : List (Nat × String) :=
  [(5, "Monday"), (3, "Monday"), (5, "Monday"), (3, "Monday")]

/-- C7 (counterexample): with inbound hours `[5, 3, 5, 3]` both 5 and 3 tie
at count 2; the code returns 5 (first inserted), the claim's lowest-hour
tie-break demands 3; processing the same messages in reverse order returns 3,
so the result is also not independent of processing order. -/
theorem C7_counterexample :
    (api_ai_best_time inbC7).map (fun r => r.best_hour) = some 5 ∧
    lowest_argmax_hour (inbC7.map Prod.fst) = some 3 ∧
    (api_ai_best_time inbC7.reverse).map (fun r => r.best_hour) = some 3 := by
  decide

/-- C7 (amended): for at least two inbound messages, `best_hour` attains the
maximal count of the hour multiset, and among tied hours it is the FIRST in
first-occurrence order of the processed sequence (Python dict insertion
order), not the lowest value — so the answer depends on the query order;
`best_day` behaves the same over the weekday names. -/
theorem C7_amended :
    ∀ (inbound : List (Nat × String)), 2 ≤ inbound.length →
    ∃ r, api_ai_best_time inbound = some r ∧
      (r.best_hour ∈ inbound.map Prod.fst ∧
        (∀ k ∈ inbound.map Prod.fst,
          occCount (inbound.map Prod.fst) k ≤
            occCount (inbound.map Prod.fst) r.best_hour) ∧
        (firstOcc (inbound.map Prod.fst)).find?
            (fun h => decide (occCount (inbound.map Prod.fst) r.best_hour ≤
              occCount (inbound.map Prod.fst) h)) = some r.best_hour) ∧
      (r.best_day ∈ inbound.map Prod.snd ∧
        (∀ k ∈ inbound.map Prod.snd,
          occCount (inbound.map Prod.snd) k ≤
            occCount (inbound.map Prod.snd) r.best_day) ∧
        (firstOcc (inbound.map Prod.snd)).find?
            (fun d => decide (occCount (inbound.map Prod.snd) r.best_day ≤
              occCount (inbound.map Prod.snd) d)) = some r.best_day) := by
  intro inbound h2
  have hlen : ¬(inbound.length < 2) := not_lt.2 h2
  have hnil : inbound ≠ [] := by
    intro hcon
    rw [hcon] at h2
    simp at h2
  rw [api_ai_best_time, if_neg hlen]
  refine ⟨_, rfl, ?_, ?_⟩
  · have hne : inbound.map Prod.fst ≠ [] := by
      intro hcon
      exact hnil (List.map_eq_nil_iff.1 hcon)
    exact bestKey_spec (inbound.map Prod.fst) 10 hne
  · have hne : inbound.map Prod.snd ≠ [] := by
      intro hcon
      exact hnil (List.map_eq_nil_iff.1 hcon)
    exact bestKey_spec (inbound.map Prod.snd) "Tuesday" hne

/-- Witness for C7 (amended) at the concrete tied input. -/
theorem C7_witness :
    2 ≤ inbC7.length ∧
    (∃ r, api_ai_best_time inbC7 = some r ∧
      (r.best_hour ∈ inbC7.map Prod.fst ∧
        (∀ k ∈ inbC7.map Prod.fst,
          occCount (inbC7.map Prod.fst) k ≤ occCount (inbC7.map Prod.fst) r.best_hour) ∧
        (firstOcc (inbC7.map Prod.fst)).find?
            (fun h => decide (occCount (inbC7.map Prod.fst) r.best_hour ≤
              occCount (inbC7.map Prod.fst) h)) = some r.best_hour) ∧
      (r.best_day ∈ inbC7.map Prod.snd ∧
        (∀ k ∈ inbC7.map Prod.snd,
          occCount (inbC7.map Prod.snd) k ≤ occCount (inbC7.map Prod.snd) r.best_day) ∧
        (firstOcc (inbC7.map Prod.snd)).find?
            (fun d => decide (occCount (inbC7.map Prod.snd) r.best_day ≤
              occCount (inbC7.map Prod.snd) d)) = some r.best_day)) :=
  ⟨by decide, C7_amended inbC7 (by decide)⟩

/-! ### ActionPrioritizer claims (C8) -/

theorem partnerSnapshot_id (db : DB) (now : ℚ) (p : Partner) :
    (partnerSnapshot db now p).id = p.id := by
  rw [partnerSnapshot]
  cases (db.partnerMessagesDesc p.id).take 5 <;> rfl

def mkPartnerC8 (i : Nat) : Partner :=
  ⟨i, "P", none, none, "+1555" ++ toString i, none, none, none, false, false, none⟩

def dbC8 : DB :=
  ⟨(List.range 31).map (fun i => mkPartnerC8 (i + 1)),
   [⟨31, "inbound", some "question?", none, none, some "received", none, 0⟩], []⟩

def actC8 : ActionRec := ⟨1, "high", "r", "respond", "m"⟩

def actsC8 : List ActionRec := [actC8, actC8, actC8, actC8, actC8, actC8]

def parse6 : JsonParse ActionRec := fun s =>
  if s = "[6]" then Except.ok actsC8 else Except.error "Expecting value"

/-- C8 (counterexample): with 31 active partners where the 31st is the only
`needs_response` candidate, the pool handed to the ranker (`partner_data[:30]`)
omits it — needs_response candidates ARE pre-filtered out by the blind
30-row truncation; and the handler applies no cap to the ranker's response:
a parsed list of 6 actions is returned as 6 recommendations. -/
theorem C8_counterexample :
    (mkPartnerC8 31 ∈ activePartners dbC8 ∧
      (partnerSnapshot dbC8 0 (mkPartnerC8 31)).status = "needs_response" ∧
      (aiPool dbC8 0).all (fun s => s.id != 31) = true) ∧
    (parse6 (stripFences (pyStrip "[6]")) = Except.ok actsC8 ∧
      actsC8.length = 6 ∧
      nextActionsFromResponse parse6 dbC8 "[6]" =
        Except.ok (actsC8.map (enrichAction dbC8)) ∧
      (actsC8.map (enrichAction dbC8)).length = 6) :=
  ⟨⟨by decide, by decide, by decide⟩, ⟨rfl, rfl, rfl, rfl⟩⟩

/-- C8 (amended): no status-based pre-filtering happens — every one of the
FIRST 30 active partners (query order), whatever its `contact_status`, is in
the pool with its computed status, and when there are at most 30 active
partners every active partner (so every `needs_response` candidate) is
included; but the pool is blindly truncated to 30 rows, and the number of
returned recommendations equals whatever the external ranker returns (5 is
requested in the prompt, never enforced). -/
theorem C8_amended :
    (∀ (db : DB) (now : ℚ) (p : Partner), p ∈ (activePartners db).take 30 →
      ∃ s ∈ aiPool db now, s.id = p.id ∧ s.status = (partnerSnapshot db now p).status) ∧
    (∀ (db : DB) (now : ℚ), (activePartners db).length ≤ 30 →
      ∀ p ∈ activePartners db, ∃ s ∈ aiPool db now, s.id = p.id) ∧
    (∀ (parseJson : JsonParse ActionRec) (db : DB) (raw : String) (l : List ActionRec),
      parseJson (stripFences (pyStrip raw)) = Except.ok l →
      nextActionsFromResponse parseJson db raw = Except.ok (l.map (enrichAction db)) ∧
      (l.map (enrichAction db)).length = l.length) := by
  refine ⟨?_, ?_, ?_⟩
  · intro db now p hp
    refine ⟨partnerSnapshot db now p, ?_, partnerSnapshot_id db now p, rfl⟩
    rw [aiPool, partner_data, ← List.map_take]
    exact List.mem_map_of_mem _ hp
  · intro db now hlen p hp
    have hp30 : p ∈ (activePartners db).take 30 := by
      rw [List.take_of_length_le hlen]
      exact hp
    refine ⟨partnerSnapshot db now p, ?_, partnerSnapshot_id db now p⟩
    rw [aiPool, partner_data, ← List.map_take]
    exact List.mem_map_of_mem _ hp30
  · intro parseJson db raw l hparse
    rw [nextActionsFromResponse, hparse]
    exact ⟨rfl, List.length_map _ _⟩

def dbC8small : DB := ⟨[mkPartnerC8 1], [], []⟩

/-- Witness for C8 (amended) at concrete inputs. -/
theorem C8_witness :
    (mkPartnerC8 1 ∈ (activePartners dbC8).take 30 ∧
      ∃ s ∈ aiPool dbC8 0, s.id = (mkPartnerC8 1).id ∧
        s.status = (partnerSnapshot dbC8 0 (mkPartnerC8 1)).status) ∧
    ((activePartners dbC8small).length ≤ 30 ∧
      ∀ p ∈ activePartners dbC8small, ∃ s ∈ aiPool dbC8small 0, s.id = p.id) ∧
    (parse6 (stripFences (pyStrip "[6]")) = Except.ok actsC8 ∧
      nextActionsFromResponse parse6 dbC8 "[6]" = Except.ok (actsC8.map (enrichAction dbC8)) ∧
      (actsC8.map (enrichAction dbC8)).length = actsC8.length) :=
  ⟨⟨by decide, C8_amended.1 dbC8 0 (mkPartnerC8 1) (by decide)⟩,
   ⟨by decide, C8_amended.2.1 dbC8small 0 (by decide)⟩,
   ⟨rfl, C8_amended.2.2 parse6 dbC8 "[6]" actsC8 rfl⟩⟩

/-! ### AI-output resilience claims (C9) -/

def dbEmpty : DB := ⟨[], [], []⟩

def fencedC9 : String := "```json[\"A\",\"B\",\"C\"]```"

def parseC9 : JsonParse String := fun s =>
  if s = "[\"A\",\"B\",\"C\"]" then Except.ok ["A", "B", "C"]
  else Except.error "Expecting value"

def parseC9bad : JsonParse ActionRec := fun _ => Except.error "Expecting value"

/-- C9 (counterexample): the claim fails on both consumers.  The reply-
suggestion handler attempts NO unwrap: for a fenced payload whose unwrapped
text parses fine, it still lands on the static fallback.  The next-action
handler does unwrap but returns the parse error to its caller (HTTP 500)
instead of any static fallback. -/
theorem C9_counterexample :
    (parseC9 (stripFences (pyStrip fencedC9)) = Except.ok ["A", "B", "C"] ∧
      suggestionsFromResponse parseC9 fencedC9 = suggestionsFallback) ∧
    nextActionsFromResponse parseC9bad dbEmpty "garbage" = Except.error "Expecting value" :=
  ⟨⟨rfl, rfl⟩, rfl⟩

/-- C9 (amended): the reply-suggestion handler parses the stripped text
directly (no fence unwrap) and returns the static fallback list — never an
error — when parsing fails, and the first three parsed entries otherwise;
the next-action handler unwraps formatting fences first but, when parsing
still fails, returns the parse error to its caller rather than a fallback. -/
theorem C9_amended :
    (∀ (parseJson : JsonParse String) (raw : String) (l : List String),
      parseJson (pyStrip raw) = Except.ok l →
      suggestionsFromResponse parseJson raw = l.take 3) ∧
    (∀ (parseJson : JsonParse String) (raw e : String),
      parseJson (pyStrip raw) = Except.error e →
      suggestionsFromResponse parseJson raw = suggestionsFallback) ∧
    (∀ (parseJson : JsonParse ActionRec) (db : DB) (raw : String) (l : List ActionRec),
      parseJson (stripFences (pyStrip raw)) = Except.ok l →
      nextActionsFromResponse parseJson db raw = Except.ok (l.map (enrichAction db))) ∧
    (∀ (parseJson : JsonParse ActionRec) (db : DB) (raw e : String),
      parseJson (stripFences (pyStrip raw)) = Except.error e →
      nextActionsFromResponse parseJson db raw = Except.error e) := by
  refine ⟨?_, ?_, ?_, ?_⟩
  · intro parseJson raw l h
    rw [suggestionsFromResponse, h]
  · intro parseJson raw e h
    rw [suggestionsFromResponse, h]
  · intro parseJson db raw l h
    rw [nextActionsFromResponse, h]
  · intro parseJson db raw e h
    rw [nextActionsFromResponse, h]

/-- Witness for C9 (amended) at concrete inputs: a parse success truncated to
three suggestions, a parse failure falling back, a next-action success, and a
next-action failure surfaced as an error. -/
theorem C9_witness :
    (parseC9 (pyStrip "[\"A\",\"B\",\"C\"]") = Except.ok ["A", "B", "C"] ∧
      suggestionsFromResponse parseC9 "[\"A\",\"B\",\"C\"]" = ["A", "B", "C"].take 3) ∧
    (parseC9 (pyStrip "garbage") = Except.error "Expecting value" ∧
      suggestionsFromResponse parseC9 "garbage" = suggestionsFallback) ∧
    (parse6 (stripFences (pyStrip "[6]")) = Except.ok actsC8 ∧
      nextActionsFromResponse parse6 dbEmpty "[6]" =
        Except.ok (actsC8.map (enrichAction dbEmpty))) ∧
    (parseC9bad (stripFences (pyStrip "garbage")) = Except.error "Expecting value" ∧
      nextActionsFromResponse parseC9bad dbEmpty "garbage" = Except.error "Expecting value") :=
  ⟨⟨rfl, C9_amended.1 parseC9 "[\"A\",\"B\",\"C\"]" ["A", "B", "C"] rfl⟩,
   ⟨rfl, C9_amended.2.1 parseC9 "garbage" "Expecting value" rfl⟩,
   ⟨rfl, C9_amended.2.2.1 parse6 dbEmpty "[6]" actsC8 rfl⟩,
   ⟨rfl, C9_amended.2.2.2 parseC9bad dbEmpty "garbage" "Expecting value" rfl⟩⟩

/-! ### Inbound webhook claims (C10) -/

/-- C10: when the sender's phone matches no existing partner, the opt-out
keyword branch does nothing (it only flips a partner that already exists), a
new `Partner` is auto-created with `opted_out = false` and the auto-created
note, the inbound `Message` is logged against it, and every pre-existing row
is left untouched — for EVERY body, opt-out keywords included. -/
theorem C10_autocreate_logs_inbound :
    ∀ (db : DB) (now : ℚ) (from_number body : String) (mu mt : Option String),
      db.partners.find? (fun p => p.phone == from_number) = none →
      ∃ newP : Partner,
        (webhook_incoming db now from_number body mu mt).partners =
          db.partners ++ [newP] ∧
        newP.opted_out = false ∧
        newP.phone = from_number ∧
        newP.id = nextPartnerId db ∧
        newP.notes = some "Auto-created from incoming message" ∧
        (webhook_incoming db now from_number body mu mt).messages =
          db.messages ++
            [{ partner_id := nextPartnerId db, direction := "inbound",
               body := some body, media_url := mu, media_type := mt,
               status := some "received", twilio_sid := none, created_at := now }] ∧
        (webhook_incoming db now from_number body mu mt).scheduled = db.scheduled := by
  intro db now from_number body mu mt hfind
  have hwh : webhook_incoming db now from_number body mu mt =
      ({ db with partners := db.partners ++
          [(⟨nextPartnerId db, from_number, none, none, from_number, none, none,
             some "Auto-created from incoming message", false, false, none⟩ : Partner)] }).addMessage
        { partner_id := nextPartnerId db, direction := "inbound", body := some body,
          media_url := mu, media_type := mt, status := some "received",
          twilio_sid := none, created_at := now } := by
    rw [webhook_incoming]
    dsimp only []
    rw [hfind]
    dsimp only []
    by_cases hk : opt_out_keywords.contains (pyLower (pyStrip body)) = true
    · rw [if_pos hk]
    · rw [if_neg hk]
  refine ⟨⟨nextPartnerId db, from_number, none, none, from_number, none, none,
      some "Auto-created from incoming message", false, false, none⟩,
    ?_, rfl, rfl, rfl, rfl, ?_, ?_⟩
  · rw [hwh]; rfl
  · rw [hwh]; rfl
  · rw [hwh]; rfl

def pC10 : Partner :=
  ⟨1, "A", none, none, "+15550001", none, none, none, false, false, none⟩

def dbC10 : DB := ⟨[pC10], [], []⟩

/-- Witness for C10 at a concrete database and the opt-out keyword body
`" STOP "` from an unknown phone number. -/
theorem C10_witness :
    dbC10.partners.find? (fun p => p.phone == "+19990000") = none ∧
    (∃ newP : Partner,
      (webhook_incoming dbC10 5 "+19990000" " STOP " none none).partners =
        dbC10.partners ++ [newP] ∧
      newP.opted_out = false ∧
      newP.phone = "+19990000" ∧
      newP.id = nextPartnerId dbC10 ∧
      newP.notes = some "Auto-created from incoming message" ∧
      (webhook_incoming dbC10 5 "+19990000" " STOP " none none).messages =
        dbC10.messages ++
          [{ partner_id := nextPartnerId dbC10, direction := "inbound",
             body := some " STOP ", media_url := none, media_type := none,
             status := some "received", twilio_sid := none, created_at := 5 }] ∧
      (webhook_incoming dbC10 5 "+19990000" " STOP " none none).scheduled =
        dbC10.scheduled) :=
  ⟨by decide,
   C10_autocreate_logs_inbound dbC10 5 "+19990000" " STOP " none none (by decide)⟩

end SMS
